import Mathlib

/-!
# Book Finder: search & pagination session controller, verified model

A shallow embedding of the search/pagination session controller and the
two collection stores (bookmarks, reading list) of the Book Finder app
(`src/App.js`, `src/components/BookCard.js`).

Conventions of the embedding:
* A JavaScript value that may be `undefined` is an `Option`.
* JS string truthiness (`s` is truthy iff non-empty) drives `a || b`,
  modelled by `jsOrString`.
* The async `fetchBooks` is split into its synchronous prefix
  (the empty-query guard, `setLoading(true)`, `setError(null)`, issuing
  the request) and its continuation (`fetchBooksBody`, the
  `try`/`catch`/`finally` body run when the response arrives).  The
  network is modelled by a `FetchOutcome` the environment chooses:
  `success docs` is a response whose JSON parsed, `docs` being the
  (possibly absent) `data.docs` array; `failure msg` covers transport
  errors, non-ok HTTP status (the thrown `HTTP error! status: ...`),
  and JSON parse failure, all of which land in the `catch` block with
  message `msg`.
* `Config` pairs the component state with the list of in-flight
  requests, giving an interleaving semantics for the concurrency
  claims; the `handleSearch`/`handleLoadMore` functions are the atomic
  (request completes immediately) view used for the sequential claims.
-/

/-- JavaScript `String.prototype.trim`: strip leading and trailing
whitespace.  (Lean's own `String.trim` is defined through byte-position
recursion that the kernel cannot evaluate, so the embedding works on
the character list directly.) -/
def jsTrim (s : String) : String :=
  ⟨((s.data.dropWhile Char.isWhitespace).reverse.dropWhile Char.isWhitespace).reverse⟩

/-- A book record as consumed from the Open Library response: the
fields `src/App.js` and `BookCard` read. `none` is an absent field. -/
structure Book where
  key : Option String
  title : Option String
  author_name : Option (List String)
  first_publish_year : Option Nat
  cover_i : Option Nat
deriving DecidableEq, Repr

/-- JS `a || b` on two possibly-undefined strings: returns `a` when `a`
is truthy (defined and non-empty), else `b`. -/
def jsOrString (a b : Option String) : Option String :=
  match a with
  | some s => if s = "" then b else some s
  | none => b

/-- The derived identity `book.key || book.title` used by
`toggleBookmark`, `addToReadingList`, `removeFromReadingList` and
`BookCard`. -/
def bookId (b : Book) : Option String :=
  jsOrString b.key b.title

/-- A reading-list entry: `{ ...book, addedDate: new Date().toISOString() }`.
Only `addedDate` is new; the spread keeps every `Book` field. -/
structure ReadingListEntry where
  book : Book
  addedDate : String
deriving DecidableEq, Repr

/-- Membership by identity, as computed by
`store.some(b => (b.key || b.title) === id)` in `BookCard` and in the
store mutators (the spec's `contains(identity)`). -/
def containsBook (store : List Book) (id : Option String) : Bool :=
  store.any (fun b => bookId b == id)

/-- `toggleBookmark(book)` from `src/App.js`: compute
`bookId = book.key || book.title`; if some stored entry has that
identity, keep only the entries whose identity differs (`filter !==`),
else append `book`. -/
def toggleBookmark (book : Book) (prev : List Book) : List Book :=
  let id := bookId book
  if prev.any (fun b => bookId b == id) then
    prev.filter (fun b => !(bookId b == id))
  else
    prev ++ [book]

/-- `addToReadingList(book)` from `src/App.js`: no-op when an entry
with the same identity is already in the list, else append the spread
record with an `addedDate` stamp (`now` stands for
`new Date().toISOString()`). -/
def addToReadingList (book : Book) (now : String) (prev : List ReadingListEntry) :
    List ReadingListEntry :=
  let id := bookId book
  if prev.any (fun e => bookId e.book == id) then
    prev
  else
    prev ++ [⟨book, now⟩]

/-- The session-controller state: the `useState` cells of `App` that
the search/pagination logic reads and writes. -/
structure SessionState where
  searchQuery : String
  searchType : String
  books : List Book
  loading : Bool
  error : Option String
  currentPage : Nat
  hasMoreResults : Bool
deriving DecidableEq, Repr

/-- The spec's `status ∈ {idle, loading, error}` read off the state:
`loading` while a fetch is pending, `error` when an error message is
set, else `idle`. -/
inductive Status where
  | idle
  | loading
  | error
deriving DecidableEq, Repr

def status (s : SessionState) : Status :=
  if s.loading then .loading
  else if s.error.isSome then .error
  else .idle

/-- How a fetch resolves. `success docs` is an ok HTTP response whose
body parsed, with `docs = data.docs` (`none` when the field is
absent); `failure msg` is any thrown error caught by the `catch`
block (network failure, the non-ok `HTTP error! status: ...` throw,
or a parse failure), with `msg = err.message`. -/
inductive FetchOutcome where
  | success (docs : Option (List Book))
  | failure (msg : String)
deriving DecidableEq, Repr

/-- The `try`/`catch`/`finally` body of `fetchBooks(query, type, page,
append)` applied when the response arrives: on
`data.docs && data.docs.length > 0`, set `books` (append or replace),
`hasMoreResults := (docs.length === 12)`, `currentPage := page`;
otherwise clear `books` unless appending and set `hasMoreResults :=
false`; on a caught error set the message and clear `books` unless
appending; `finally` always sets `loading := false`. -/
def fetchBooksBody (s : SessionState) (page : Nat) (append : Bool)
    (out : FetchOutcome) : SessionState :=
  match out with
  | .success docs =>
    let d := docs.getD []
    if 0 < d.length then
      { s with books := if append then s.books ++ d else d,
               hasMoreResults := d.length == 12,
               currentPage := page,
               loading := false }
    else
      { s with books := if append then s.books else [],
               hasMoreResults := false,
               loading := false }
  | .failure msg =>
      { s with error := some ("Failed to fetch books: " ++ msg),
               books := if append then s.books else [],
               loading := false }

/-- Atomic view of `fetchBooks(query, type, page, append)`: the guard
`if (!query.trim()) return`, then `setLoading(true)`,
`setError(null)`, and the body at the outcome the network produced.
(`type` only selects the query parameter of the request URL, which the
state model does not store.) -/
def fetchBooks (s : SessionState) (query : String) (page : Nat) (append : Bool)
    (out : FetchOutcome) : SessionState :=
  if jsTrim query = "" then s
  else fetchBooksBody { s with loading := true, error := none } page append out

/-- Atomic view of `handleSearch`: when the trimmed query is non-empty,
`setCurrentPage(1)` then `fetchBooks(searchQuery, searchType, 1, false)`;
otherwise nothing happens. -/
def handleSearch (s : SessionState) (out : FetchOutcome) : SessionState :=
  if jsTrim s.searchQuery = "" then s
  else fetchBooks { s with currentPage := 1 } s.searchQuery 1 false out

/-- Atomic view of `handleLoadMore`: guarded by
`hasMoreResults && !loading`, then
`fetchBooks(searchQuery, searchType, currentPage + 1, true)`. -/
def handleLoadMore (s : SessionState) (out : FetchOutcome) : SessionState :=
  if s.hasMoreResults && !s.loading then
    fetchBooks s s.searchQuery (s.currentPage + 1) true out
  else s

/-- A request issued by `fetchBooks` and not yet completed, carrying
the argument snapshot its completion will use. -/
structure Request where
  query : String
  page : Nat
  append : Bool
deriving DecidableEq, Repr

/-- Component state plus the in-flight requests, for interleaved
executions. -/
structure Config where
  st : SessionState
  pending : List Request
deriving DecidableEq, Repr

/-- The synchronous prefix of `fetchBooks`: the `!query.trim()` guard,
`setLoading(true)`, `setError(null)`, and issuing the request.  The
response is consumed later by `stepComplete`. -/
def fetchBooksStart (c : Config) (query : String) (page : Nat) (append : Bool) :
    Config :=
  if jsTrim query = "" then c
  else { st := { c.st with loading := true, error := none },
         pending := c.pending ++ [⟨query, page, append⟩] }

/-- `handleSearch` in the interleaved model: when the trimmed query is
non-empty, `setCurrentPage(1)` then start
`fetchBooks(searchQuery, searchType, 1, false)`. -/
def stepSearch (c : Config) : Config :=
  if jsTrim c.st.searchQuery = "" then c
  else fetchBooksStart { c with st := { c.st with currentPage := 1 } }
        c.st.searchQuery 1 false

/-- `handleLoadMore` in the interleaved model: guarded by
`hasMoreResults && !loading`, then start
`fetchBooks(searchQuery, searchType, currentPage + 1, true)`. -/
def stepLoadMore (c : Config) : Config :=
  if c.st.hasMoreResults && !c.st.loading then
    fetchBooksStart c c.st.searchQuery (c.st.currentPage + 1) true
  else c

/-- Arrival of the response to the pending request `r` with outcome
`out`: run the fetch body against the *current* state (the closure
captured only `page` and `append`) and retire the request. -/
def stepComplete (c : Config) (r : Request) (out : FetchOutcome) : Config :=
  { st := fetchBooksBody c.st r.page r.append out,
    pending := c.pending.erase r }

/-- `N` consecutive `handleLoadMore` invocations, the `k`-th one
resolving successfully with the `k`-th batch of `batches`. -/
def loadMoreN (s : SessionState) (batches : List (List Book)) : SessionState :=
  batches.foldl (fun st b => handleLoadMore st (.success (some b))) s

/-- The identities stored in a reading list, in order. -/
def readingIds (store : List ReadingListEntry) : List (Option String) :=
  store.map (fun e => bookId e.book)

/-! ### Concrete inputs used by witnesses and counterexamples -/

/-- A synthetic record with a distinct key. -/
def mkBook (i : Nat) : Book :=
  ⟨some ("key" ++ toString i), some ("Title " ++ toString i), none, none, none⟩

/-- `n` synthetic records with keys starting at `a`. -/
def batch (a n : Nat) : List Book :=
  (List.range n).map (fun i => mkBook (a + i))

/-- The record of the spec's bookmark scenario. -/
def duneBook : Book :=
  ⟨some "/works/OL1W", some "Dune", none, none, none⟩

/-- A state just after a successful full-page search for "dune":
12 results, page 1, more available, no fetch pending. -/
def idleSearchedState : SessionState :=
  ⟨"dune", "title", batch 0 12, false, none, 1, true⟩

/-- A configuration with one load-more fetch in flight (page 4),
current page 3. -/
def loadingCfg : Config :=
  ⟨⟨"dune", "title", batch 0 12, true, none, 3, true⟩, [⟨"dune", 4, true⟩]⟩

/-- Response batch of the new search in the stale-response scenario. -/
def freshBatch : List Book := batch 100 3

/-- Response batch of the stale load-more in the stale-response
scenario. -/
def staleBatch : List Book := batch 200 2

/-- Stale-response scenario, step 1: `loadMore()` fires from
`idleSearchedState`, putting a page-2 append request in flight. -/
def cfg1 : Config := stepLoadMore ⟨idleSearchedState, []⟩

/-- Step 2: `search()` is issued while the load-more is still in
flight. -/
def cfg2 : Config := stepSearch cfg1

/-- Step 3: the search response (page 1, replace) arrives first. -/
def cfg3 : Config := stepComplete cfg2 ⟨"dune", 1, false⟩ (.success (some freshBatch))

/-- Step 4: the stale load-more response (page 2, append) arrives
last. -/
def cfg4 : Config := stepComplete cfg3 ⟨"dune", 2, true⟩ (.success (some staleBatch))

/-- A record with neither `key` nor `title`. -/
def ghostA : Book := ⟨none, none, some ["Author A"], none, none⟩

/-- A different record, with an empty-string `key` and no `title`:
`"" || undefined` is `undefined`, so its identity is also absent. -/
def ghostB : Book := ⟨some "", none, some ["Author B"], none, none⟩

/-- A configuration whose query is whitespace-only. -/
def whitespaceCfg : Config :=
  ⟨⟨"   ", "title", batch 0 12, false, none, 2, true⟩, []⟩

/-! ## Lemmas about the collection stores -/

theorem containsBook_toggle_self (book : Book) (store : List Book) :
    containsBook (toggleBookmark book store) (bookId book)
      = !(containsBook store (bookId book)) := by
  unfold toggleBookmark containsBook
  by_cases h : store.any (fun b => bookId b == bookId book) = true
  · rw [if_pos h, List.any_filter, h]
    simp
  · rw [if_neg h, List.any_append]
    have h0 : store.any (fun b => bookId b == bookId book) = false := by
      simpa using h
    rw [h0]
    simp

theorem containsBook_toggle_other (book : Book) (store : List Book)
    (id : Option String) (hne : id ≠ bookId book) :
    containsBook (toggleBookmark book store) id = containsBook store id := by
  unfold toggleBookmark containsBook
  by_cases h : store.any (fun b => bookId b == bookId book) = true
  · rw [if_pos h, List.any_filter, Bool.eq_iff_iff, List.any_eq_true, List.any_eq_true]
    constructor
    · rintro ⟨x, hx, hpx⟩
      exact ⟨x, hx, (Bool.and_eq_true _ _ |>.mp hpx).2⟩
    · rintro ⟨x, hx, hpx⟩
      refine ⟨x, hx, Bool.and_eq_true _ _ |>.mpr ⟨?_, hpx⟩⟩
      have hxid : bookId x = id := by simpa using hpx
      have : bookId x ≠ bookId book := hxid ▸ hne
      simp [this]
  · rw [if_neg h, List.any_append]
    have hb : (bookId book == id) = false := beq_eq_false_iff_ne.mpr (Ne.symm hne)
    simp [hb]

/-- C8: toggling a record twice in succession restores the bookmark
store's membership: `contains(identity)` is unchanged for every
identity, and toggling twice on an initially empty store leaves it
empty. -/
theorem toggle_twice_membership (store : List Book) (book : Book) (id : Option String) :
    containsBook (toggleBookmark book (toggleBookmark book store)) id
      = containsBook store id
    ∧ toggleBookmark book (toggleBookmark book []) = [] := by
  constructor
  · by_cases hid : id = bookId book
    · subst hid
      rw [containsBook_toggle_self, containsBook_toggle_self, Bool.not_not]
    · rw [containsBook_toggle_other _ _ _ hid, containsBook_toggle_other _ _ _ hid]
  · simp [toggleBookmark]

/-- C9: adding an already-present identity to the reading list is a
no-op (so two adds of the same record leave exactly one entry with its
identity), and `addToReadingList` preserves freedom from duplicate
identities. -/
theorem countP_beq_of_nodup {α : Type} [BEq α] [LawfulBEq α] {l : List α} {a : α}
    (hnd : l.Nodup) (hm : a ∈ l) : l.countP (fun x => x == a) = 1 := by
  induction l with
  | nil => cases hm
  | cons b t ih =>
    rw [List.nodup_cons] at hnd
    rw [List.countP_cons]
    rcases List.mem_cons.mp hm with hab | hat
    · subst hab
      have hz : t.countP (fun x => x == a) = 0 := by
        rw [List.countP_eq_zero]
        intro x hx
        intro hxa
        exact hnd.1 ((beq_iff_eq.mp hxa) ▸ hx)
      simp [hz]
    · have hba : (b == a) = false := by
        rw [beq_eq_false_iff_ne]
        intro hba
        exact hnd.1 (hba ▸ hat)
      rw [ih hnd.2 hat]
      simp [hba]

theorem add_twice_one_entry (prev : List ReadingListEntry) (b : Book) (t1 t2 : String)
    (hnd : (readingIds prev).Nodup) :
    addToReadingList b t2 (addToReadingList b t1 prev) = addToReadingList b t1 prev
    ∧ (readingIds (addToReadingList b t1 prev)).Nodup
    ∧ (addToReadingList b t1 prev).countP (fun e => bookId e.book == bookId b) = 1 := by
  by_cases h : prev.any (fun e => bookId e.book == bookId b) = true
  · have hadd1 : addToReadingList b t1 prev = prev := by
      unfold addToReadingList
      rw [if_pos h]
    have hadd2 : addToReadingList b t2 prev = prev := by
      unfold addToReadingList
      rw [if_pos h]
    rw [hadd1]
    refine ⟨hadd2, hnd, ?_⟩
    have hmem2 : bookId b ∈ readingIds prev := by
      rw [List.any_eq_true] at h
      obtain ⟨e, he, hpe⟩ := h
      have heq : bookId e.book = bookId b := by simpa using hpe
      rw [readingIds, List.mem_map]
      exact ⟨e, he, heq⟩
    have hcnt : prev.countP (fun e => bookId e.book == bookId b)
        = (readingIds prev).countP (fun x => x == bookId b) := by
      rw [readingIds, List.countP_map]
      rfl
    rw [hcnt]
    exact countP_beq_of_nodup hnd hmem2
  · have hfalse : (prev.any fun e => bookId e.book == bookId b) = false :=
      Bool.eq_false_iff.mpr h
    have h0 : ∀ e ∈ prev, (bookId e.book == bookId b) = false := by
      intro e he
      exact Bool.eq_false_iff.mpr ((List.any_eq_false.mp hfalse) e he)
    have hadd : addToReadingList b t1 prev = prev ++ [⟨b, t1⟩] := by
      unfold addToReadingList
      rw [if_neg h]
    have hmem : bookId b ∉ readingIds prev := by
      rw [readingIds, List.mem_map]
      rintro ⟨e, he, heq⟩
      have hfe := h0 e he
      rw [beq_eq_false_iff_ne] at hfe
      exact hfe heq
    have hany2 : ((prev ++ [⟨b, t1⟩] : List ReadingListEntry).any
        (fun e => bookId e.book == bookId b)) = true := by
      rw [List.any_append]
      simp
    refine ⟨?_, ?_, ?_⟩
    · rw [hadd]
      unfold addToReadingList
      rw [if_pos hany2]
    · rw [hadd, readingIds, List.map_append, List.nodup_append]
      refine ⟨hnd, by simp, ?_⟩
      simp only [List.map_cons, List.map_nil, List.disjoint_singleton]
      exact hmem
    · rw [hadd, List.countP_append]
      have hz : prev.countP (fun e => bookId e.book == bookId b) = 0 := by
        rw [List.countP_eq_zero]
        intro e he
        simp [h0 e he]
      rw [hz]
      simp

/-- C9 witness: two adds of the Dune record to an empty reading list
leave exactly one entry. -/
theorem add_twice_one_entry_witness :
    addToReadingList duneBook "t2" (addToReadingList duneBook "t1" [])
      = addToReadingList duneBook "t1" []
    ∧ (readingIds (addToReadingList duneBook "t1" [])).Nodup
    ∧ (addToReadingList duneBook "t1" []).countP
        (fun e => bookId e.book == bookId duneBook) = 1 :=
  add_twice_one_entry [] duneBook "t1" "t2" (by simp [readingIds])

/-- C10: identity falls back by JS truthiness: an empty-string (or
absent) `key` yields the title as identity, a record with neither gets
an absent identity, and two such records are conflated by the
bookmark and reading-list stores. -/
theorem identity_truthy_fallback :
    (∀ t : Option String, bookId ⟨some "", t, none, none, none⟩ = t)
    ∧ (∀ t : Option String, bookId ⟨none, t, none, none, none⟩ = t)
    ∧ bookId ghostA = none
    ∧ bookId ghostB = none
    ∧ toggleBookmark ghostB [ghostA] = []
    ∧ addToReadingList ghostB "t1" [⟨ghostA, "t0"⟩] = [⟨ghostA, "t0"⟩] := by
  refine ⟨fun t => rfl, fun t => rfl, rfl, rfl, by decide, by decide⟩

/-! ## The session controller: sequential claims -/

/-- C7: a whitespace-only (or empty) query makes `search()` a no-op:
no request is issued and the whole state — status, results, page,
hasMore — is unchanged, in both the interleaved and the atomic view. -/
theorem empty_query_noop (c : Config) (out : FetchOutcome)
    (h : jsTrim c.st.searchQuery = "") :
    stepSearch c = c ∧ handleSearch c.st out = c.st := by
  constructor
  · unfold stepSearch
    rw [if_pos h]
  · unfold handleSearch
    rw [if_pos h]

/-- C7 witness: the three-space query. -/
theorem empty_query_noop_witness :
    stepSearch whitespaceCfg = whitespaceCfg
    ∧ handleSearch whitespaceCfg.st (.success (some (batch 50 3))) = whitespaceCfg.st :=
  empty_query_noop whitespaceCfg (.success (some (batch 50 3))) (by decide)

/-- C5: after a fetch that returns a batch, `hasMoreResults` is true
exactly when the batch holds 12 records (an absent `docs` field counts
as an empty batch). -/
theorem hasMore_iff_full_page (s : SessionState) (q : String) (p : Nat) (ap : Bool)
    (docs : Option (List Book)) (hq : jsTrim q ≠ "") :
    ((fetchBooks s q p ap (.success docs)).hasMoreResults = true
      ↔ (docs.getD []).length = 12) := by
  unfold fetchBooks
  rw [if_neg hq]
  simp only [fetchBooksBody]
  by_cases hd : 0 < (docs.getD []).length
  · rw [if_pos hd]
    simp
  · rw [if_neg hd]
    simp
    omega

/-- C5 witness: a full page of 12 records sets `hasMoreResults`. -/
theorem hasMore_iff_full_page_witness :
    jsTrim "dune" ≠ ""
    ∧ ((fetchBooks idleSearchedState "dune" 1 false
          (.success (some (batch 0 12)))).hasMoreResults = true
        ↔ ((some (batch 0 12)).getD []).length = 12) :=
  ⟨by decide,
   hasMore_iff_full_page idleSearchedState "dune" 1 false (some (batch 0 12)) (by decide)⟩

/-- C6: a successful `search()` replaces `results` with the page-1
batch (also when it is empty), afterwards `results` has at most 12
entries (the batch honours the requested `limit=12`) and `page = 1`. -/
theorem search_success_replaces (s : SessionState) (docs : Option (List Book))
    (hq : jsTrim s.searchQuery ≠ "") (hle : (docs.getD []).length ≤ 12) :
    (handleSearch s (.success docs)).books = docs.getD []
    ∧ (handleSearch s (.success docs)).books.length ≤ 12
    ∧ (handleSearch s (.success docs)).currentPage = 1 := by
  unfold handleSearch fetchBooks
  rw [if_neg hq, if_neg hq]
  simp only [fetchBooksBody]
  by_cases hd : 0 < (docs.getD []).length
  · rw [if_pos hd]
    refine ⟨by simp, by simpa using hle, by simp⟩
  · have hz : docs.getD [] = [] := List.length_eq_zero.mp (by omega)
    rw [if_neg hd]
    refine ⟨by simp [hz], by simp, by simp⟩

/-- C6 witness: a successful search with an empty `docs` array. -/
theorem search_success_replaces_witness :
    (handleSearch idleSearchedState (.success (some []))).books = (some ([] : List Book)).getD []
    ∧ (handleSearch idleSearchedState (.success (some []))).books.length ≤ 12
    ∧ (handleSearch idleSearchedState (.success (some []))).currentPage = 1 :=
  search_success_replaces idleSearchedState (some []) (by decide) (by decide)

/-- C4: every caught fetch error (transport, non-ok status, parse)
puts the controller in the error status with the human-readable
message; a failed `search()` clears `results` while a failed
`loadMore()` keeps the accumulated `results`. -/
theorem fetch_failure_behavior (s : SessionState) (msg : String)
    (hq : jsTrim s.searchQuery ≠ "") (hm : s.hasMoreResults = true)
    (hl : s.loading = false) :
    status (handleSearch s (.failure msg)) = .error
    ∧ (handleSearch s (.failure msg)).error = some ("Failed to fetch books: " ++ msg)
    ∧ (handleSearch s (.failure msg)).books = []
    ∧ status (handleLoadMore s (.failure msg)) = .error
    ∧ (handleLoadMore s (.failure msg)).error = some ("Failed to fetch books: " ++ msg)
    ∧ (handleLoadMore s (.failure msg)).books = s.books := by
  unfold handleSearch handleLoadMore fetchBooks
  simp [fetchBooksBody, status, hq, hm, hl]

/-- C4 witness: a transport failure during `search()` and during
`loadMore()` from the post-search state. -/
theorem fetch_failure_behavior_witness :
    status (handleSearch idleSearchedState (.failure "NetworkError")) = .error
    ∧ (handleSearch idleSearchedState (.failure "NetworkError")).error
        = some ("Failed to fetch books: " ++ "NetworkError")
    ∧ (handleSearch idleSearchedState (.failure "NetworkError")).books = []
    ∧ status (handleLoadMore idleSearchedState (.failure "NetworkError")) = .error
    ∧ (handleLoadMore idleSearchedState (.failure "NetworkError")).error
        = some ("Failed to fetch books: " ++ "NetworkError")
    ∧ (handleLoadMore idleSearchedState (.failure "NetworkError")).books
        = idleSearchedState.books :=
  fetch_failure_behavior idleSearchedState "NetworkError" (by decide) (by decide) (by decide)

/-- One successful, non-empty `loadMore` resolution from an idle state
with more results: the batch is appended, the page advances, and the
guard data for the next call is as the body computes it. -/
theorem handleLoadMore_success (s : SessionState) (b : List Book)
    (hl : s.loading = false) (hm : s.hasMoreResults = true)
    (hq : jsTrim s.searchQuery ≠ "") (hb : 0 < b.length) :
    handleLoadMore s (.success (some b)) =
      { s with books := s.books ++ b,
               hasMoreResults := b.length == 12,
               currentPage := s.currentPage + 1,
               loading := false,
               error := none } := by
  unfold handleLoadMore fetchBooks
  simp [fetchBooksBody, hq, hm, hl, hb]

/-- Invariant behind C3: starting idle with `hasMore`, a run of
successful `loadMore` resolutions whose batches are full pages except
possibly the last (and never empty) appends every batch in order and
advances the page once per batch. -/
theorem loadMoreN_spec (batches : List (List Book)) :
    ∀ s : SessionState, s.loading = false → s.hasMoreResults = true →
      jsTrim s.searchQuery ≠ "" →
      (∀ b ∈ batches.dropLast, b.length = 12) →
      (∀ b ∈ batches, 0 < b.length) →
      (loadMoreN s batches).books = s.books ++ batches.flatten
      ∧ (loadMoreN s batches).currentPage = s.currentPage + batches.length := by
  induction batches with
  | nil =>
    intro s _ _ _ _ _
    simp [loadMoreN]
  | cons b rest ih =>
    intro s hl hm hq hfull hpos
    have hb : 0 < b.length := hpos b (List.mem_cons_self b rest)
    have hstep := handleLoadMore_success s b hl hm hq hb
    have hfold : loadMoreN s (b :: rest)
        = loadMoreN (handleLoadMore s (.success (some b))) rest := rfl
    rcases rest with _ | ⟨r, rs⟩
    · rw [hfold, hstep]
      simp [loadMoreN]
    · have hb12 : b.length = 12 := by
        apply hfull
        rw [List.dropLast_cons₂]
        exact List.mem_cons_self b (r :: rs).dropLast
      have hrest := ih { s with books := s.books ++ b,
                                hasMoreResults := b.length == 12,
                                currentPage := s.currentPage + 1,
                                loading := false,
                                error := none }
        rfl (by simp [hb12]) (by simpa using hq)
        (by
          intro x hx
          apply hfull
          rw [List.dropLast_cons₂]
          exact List.mem_cons_of_mem b hx)
        (by
          intro x hx
          exact hpos x (List.mem_cons_of_mem b hx))
      rw [hfold, hstep]
      refine ⟨?_, ?_⟩
      · rw [hrest.1]
        simp [List.append_assoc]
      · rw [hrest.2]
        simp [Nat.add_assoc, Nat.add_comm]

/-- Run invariant for all-full-page runs: besides the appended books
and advanced page, idleness, `hasMore`, and the query survive, so one
more `loadMore` call still fires. -/
theorem loadMoreN_full_spec (batches : List (List Book)) :
    ∀ s : SessionState, s.loading = false → s.hasMoreResults = true →
      jsTrim s.searchQuery ≠ "" → (∀ b ∈ batches, b.length = 12) →
      (loadMoreN s batches).books = s.books ++ batches.flatten
      ∧ (loadMoreN s batches).currentPage = s.currentPage + batches.length
      ∧ (loadMoreN s batches).loading = false
      ∧ (loadMoreN s batches).hasMoreResults = true
      ∧ (loadMoreN s batches).searchQuery = s.searchQuery := by
  induction batches with
  | nil =>
    intro s hl hm _ _
    exact ⟨by simp [loadMoreN], by simp [loadMoreN], hl, hm, rfl⟩
  | cons b rest ih =>
    intro s hl hm hq h12
    have hb12 : b.length = 12 := h12 b (List.mem_cons_self b rest)
    have hb : 0 < b.length := by omega
    have hstep := handleLoadMore_success s b hl hm hq hb
    have hfold : loadMoreN s (b :: rest)
        = loadMoreN (handleLoadMore s (.success (some b))) rest := rfl
    rw [hfold, hstep]
    have hrest := ih { s with books := s.books ++ b,
                              hasMoreResults := b.length == 12,
                              currentPage := s.currentPage + 1,
                              loading := false,
                              error := none }
      rfl (by simp [hb12]) (by simpa using hq)
      (fun x hx => h12 x (List.mem_cons_of_mem b hx))
    refine ⟨?_, ?_, hrest.2.2.1, hrest.2.2.2.1, hrest.2.2.2.2⟩
    · rw [hrest.1]
      simp [List.append_assoc]
    · rw [hrest.2.1]
      simp only [List.length_cons]
      omega

/-- A `loadMore` resolving with an empty `docs` array takes the else
branch of the body: `books` is untouched (append mode), `hasMore`
falls, and — crucially — `setCurrentPage` is never called. -/
theorem handleLoadMore_empty_batch (s : SessionState)
    (hl : s.loading = false) (hm : s.hasMoreResults = true)
    (hq : jsTrim s.searchQuery ≠ "") :
    handleLoadMore s (.success (some [])) =
      { s with hasMoreResults := false, loading := false, error := none } := by
  unfold handleLoadMore fetchBooks
  simp [fetchBooksBody, hq, hm, hl]

/-- C3 counterexample: from the post-search state, `N = 1` successful
`loadMore()` resolving with an empty `docs` array (the spec-documented
zero-results success past the last page) appends nothing — but leaves
`page = 1`, not `N + 1 = 2` as the claim asserts; `hasMore` falling to
`false` shows the call really fired. -/
theorem pagination_empty_batch_cex :
    (loadMoreN idleSearchedState [[]]).books
        = idleSearchedState.books ++ ([[]] : List (List Book)).flatten
    ∧ (loadMoreN idleSearchedState [[]]).hasMoreResults = false
    ∧ ¬ (loadMoreN idleSearchedState [[]]).currentPage = 1 + 1 := by decide

/-- C3 (amended): after `N` successful `loadMore()` resolutions with
no intervening `search()` (all but the last batch full pages, as the
`hasMore` guard forces), `results` is the page-1 batch followed by
each batch in fetch order and its length is the sum of the batch
sizes. `page = N + 1` holds when every batch is non-empty; a run whose
final batch is empty appends nothing in that step, clears `hasMore`,
and does not advance the page, ending at `page = N`. -/
theorem pagination_monotonic_amended (s : SessionState) (batches : List (List Book))
    (hp : s.currentPage = 1) (hl : s.loading = false) (hm : s.hasMoreResults = true)
    (hq : jsTrim s.searchQuery ≠ "")
    (hfull : ∀ b ∈ batches.dropLast, b.length = 12) :
    ((∀ b ∈ batches, 0 < b.length) →
      (loadMoreN s batches).books = s.books ++ batches.flatten
      ∧ (loadMoreN s batches).books.length
          = s.books.length + (batches.map List.length).sum
      ∧ (loadMoreN s batches).currentPage = batches.length + 1)
    ∧ ((∀ b ∈ batches, b.length = 12) →
      (loadMoreN s (batches ++ [[]])).books = s.books ++ batches.flatten
      ∧ (loadMoreN s (batches ++ [[]])).currentPage = batches.length + 1
      ∧ (loadMoreN s (batches ++ [[]])).hasMoreResults = false) := by
  constructor
  · intro hpos
    obtain ⟨h1, h2⟩ := loadMoreN_spec batches s hl hm hq hfull hpos
    refine ⟨h1, ?_, ?_⟩
    · rw [h1, List.length_append, List.length_flatten]
    · rw [h2, hp, Nat.add_comm]
  · intro h12
    obtain ⟨h1, h2, h3, h4, h5⟩ := loadMoreN_full_spec batches s hl hm hq h12
    have hq2 : jsTrim (loadMoreN s batches).searchQuery ≠ "" := by
      rw [h5]
      exact hq
    have hsplit : loadMoreN s (batches ++ [[]])
        = handleLoadMore (loadMoreN s batches) (.success (some [])) := by
      unfold loadMoreN
      rw [List.foldl_append]
      rfl
    have hemp := handleLoadMore_empty_batch (loadMoreN s batches) h3 h4 hq2
    rw [hsplit, hemp]
    refine ⟨?_, ?_, rfl⟩
    · show (loadMoreN s batches).books = s.books ++ batches.flatten
      exact h1
    · show (loadMoreN s batches).currentPage = batches.length + 1
      rw [h2, hp, Nat.add_comm]

/-- C3 witness: a full page then (in the second run) a trailing empty
batch, from the post-search state. -/
theorem pagination_monotonic_amended_witness :
    ((∀ b ∈ ([batch 12 12] : List (List Book)), 0 < b.length) →
      (loadMoreN idleSearchedState [batch 12 12]).books
          = idleSearchedState.books ++ ([batch 12 12] : List (List Book)).flatten
      ∧ (loadMoreN idleSearchedState [batch 12 12]).books.length
          = idleSearchedState.books.length
            + (([batch 12 12] : List (List Book)).map List.length).sum
      ∧ (loadMoreN idleSearchedState [batch 12 12]).currentPage
          = ([batch 12 12] : List (List Book)).length + 1)
    ∧ ((∀ b ∈ ([batch 12 12] : List (List Book)), b.length = 12) →
      (loadMoreN idleSearchedState ([batch 12 12] ++ [[]])).books
          = idleSearchedState.books ++ ([batch 12 12] : List (List Book)).flatten
      ∧ (loadMoreN idleSearchedState ([batch 12 12] ++ [[]])).currentPage
          = ([batch 12 12] : List (List Book)).length + 1
      ∧ (loadMoreN idleSearchedState ([batch 12 12] ++ [[]])).hasMoreResults = false) :=
  pagination_monotonic_amended idleSearchedState [batch 12 12]
    (by decide) (by decide) (by decide) (by decide) (by decide)

/-! ## The session controller: concurrency claims -/

/-- C1 counterexample: from a loading state with a fetch already in
flight, `search()` is NOT a no-op — it resets the page from 3 to 1 and
issues a second fetch, so two fetches are in flight at once. -/
theorem search_while_loading_cex :
    status loadingCfg.st = .loading
    ∧ loadingCfg.st.currentPage = 3
    ∧ loadingCfg.pending.length = 1
    ∧ (stepSearch loadingCfg).st.currentPage = 1
    ∧ (stepSearch loadingCfg).pending.length = 2 := by decide

/-- C1 (amended): while `status == loading`, `loadMore()` is a
no-op — no fetch, no state change — but `search()` is not rejected:
with a non-empty trimmed query it resets `page` to 1 and puts a second
fetch in flight. -/
theorem loading_guard_amended (c : Config) (h : status c.st = .loading) :
    stepLoadMore c = c
    ∧ (jsTrim c.st.searchQuery ≠ "" →
        (stepSearch c).st.currentPage = 1
        ∧ (stepSearch c).st.loading = true
        ∧ (stepSearch c).pending = c.pending ++ [⟨c.st.searchQuery, 1, false⟩]) := by
  have hl : c.st.loading = true := by
    by_contra hb
    have hf : c.st.loading = false := by simpa using hb
    unfold status at h
    rw [hf] at h
    simp only [Bool.false_eq_true, if_false] at h
    split at h <;> simp at h
  constructor
  · unfold stepLoadMore
    rw [hl]
    simp
  · intro hq
    simp [stepSearch, fetchBooksStart, hq]

/-- C1 witness: the amended statement at the concrete loading
configuration. -/
theorem loading_guard_amended_witness :
    stepLoadMore loadingCfg = loadingCfg
    ∧ (jsTrim loadingCfg.st.searchQuery ≠ "" →
        (stepSearch loadingCfg).st.currentPage = 1
        ∧ (stepSearch loadingCfg).st.loading = true
        ∧ (stepSearch loadingCfg).pending
            = loadingCfg.pending ++ [⟨loadingCfg.st.searchQuery, 1, false⟩]) :=
  loading_guard_amended loadingCfg (by decide)

/-- C2 refutation of the code's behavior: a `search()` issued while a
`loadMore()` is in flight, whose response arrives after the search
response, is NOT discarded — nothing in `fetchBooks` checks a
page/query snapshot, so the stale batch is appended to the freshly
reset `results` and `currentPage` is overwritten with the stale page
number 2. -/
theorem stale_response_merged :
    cfg2.st.loading = true
    ∧ cfg2.pending = [⟨"dune", 2, true⟩, ⟨"dune", 1, false⟩]
    ∧ cfg3.st.books = freshBatch
    ∧ cfg3.st.currentPage = 1
    ∧ cfg4.st.books = freshBatch ++ staleBatch
    ∧ cfg4.st.currentPage = 2 := by decide
